import Mathlib

/-!
Shallow embedding of `src/AppOperation.ts` (the `AppOperation` class):
an HTTP wrapper that resolves a registry entry to a verb handler, merges
static and dynamic headers into a `Headers` object, serializes bodies and
query parameters, invokes the transport primitive, inspects the parsed
JSON body to emit toast notifications, and converts any exception thrown
during the network call / parse / inspection into a `{status: 500, ...}`
envelope.

Modelling conventions:
- JavaScript exceptions are `JsError`; functions that can throw return
  `Except JsError _`.  An absent object property (`undefined`) is `none`.
- The transport oracle models `await fetch(url, options)` followed by
  `await response.json()` as a single function from the full URL and the
  request options to `Except JsError Json` (either throws, or the parsed
  body).
- The `Headers` object of the Fetch API is modelled as a list of
  (lowercased name, value) entries in append order; `get` joins the
  values for a name with ", ", `delete` removes every entry of a name,
  as the Fetch standard specifies.
- JSON numbers are modelled as `Int` (the only numbers the code compares
  against are the integer statuses 200/201/400/422/500).
- A record such as `params` or a header map is modelled as its entry
  list in the object's iteration order.
-/

/-- JSON values, as produced by `response.json()`. -/
inductive Json where
  | null : Json
  | bool (b : Bool) : Json
  | num (n : Int) : Json
  | str (s : String) : Json
  | arr (elems : List Json) : Json
  | obj (fields : List (String × Json)) : Json

/-- JavaScript exceptions: a `TypeError` (e.g. property access on
`undefined`/`null`) or an ordinary `Error` with a message. -/
inductive JsError where
  | typeError (m : String) : JsError
  | error (m : String) : JsError
deriving DecidableEq

/-- The `.message` property of a thrown error. -/
def JsError.message : JsError → String
  | .typeError m => m
  | .error m => m

/-- JavaScript truthiness of a value (NaN is not modelled). -/
def truthy : Json → Bool
  | .null => false
  | .bool b => b
  | .num n => n != 0
  | .str s => s ≠ ""
  | .arr _ => true
  | .obj _ => true

/-- Truthiness of a possibly-`undefined` value. -/
def truthyOpt : Option Json → Bool
  | none => false
  | some j => truthy j

/-- First field of an object with the given name (JS object keys are unique). -/
def lookupField : List (String × Json) → String → Option Json
  | [], _ => none
  | (k, v) :: rest, key => if k = key then some v else lookupField rest key

/-- JS strict equality `v === n` of a possibly-undefined value against a
number literal. -/
def jsStrictEqNum (v : Option Json) (n : Int) : Bool :=
  match v with
  | some (.num m) => m = n
  | _ => false

/-- Digit accumulation for parsing a numeric property key (structural,
so the kernel can evaluate it). -/
def digitsToNat : List Char → Nat → Option Nat
  | [], acc => some acc
  | c :: cs, acc =>
      if c.isDigit then digitsToNat cs (acc * 10 + (c.toNat - 48)) else none

/-- A property key read as an array index, when it is all digits. -/
def keyToNat (k : String) : Option Nat :=
  match k.toList with
  | [] => none
  | l => digitsToNat l 0

/-- Element of an array at a property key (array indexing `xs[k]`). -/
def arrIndex (xs : List Json) (k : String) : Option Json :=
  match keyToNat k with
  | some i => xs.get? i
  | none => none

/-- Character of a string at a property key (string indexing `s[k]`). -/
def strIndex (s : String) (k : String) : Option Json :=
  match keyToNat k with
  | some i => (s.toList.get? i).map (fun c => Json.str (String.mk [c]))
  | none => none

/-- JS member access `v[k]` on a possibly-undefined value: throws a
`TypeError` on `undefined`/`null`, looks up object fields, indexes
strings and arrays, and yields `undefined` otherwise. -/
def jsIndex (v : Option Json) (k : String) : Except JsError (Option Json) :=
  match v with
  | none =>
      Except.error (JsError.typeError
        ("Cannot read properties of undefined (reading '" ++ k ++ "')"))
  | some Json.null =>
      Except.error (JsError.typeError
        ("Cannot read properties of null (reading '" ++ k ++ "')"))
  | some (Json.obj fields) => Except.ok (lookupField fields k)
  | some (Json.str s) => Except.ok (strIndex s k)
  | some (Json.arr xs) => Except.ok (arrIndex xs k)
  | some _ => Except.ok none

/-- Optional chaining `data?.k` on a value that is itself defined:
never throws; `null` gives `undefined`. -/
def optProp (data : Json) (k : String) : Option Json :=
  match data with
  | Json.obj fields => lookupField fields k
  | _ => none

/-- The keys enumerated by `Object.keys(v)` for a non-nullish value. -/
def objectKeys : Json → List String
  | .obj fields => fields.map Prod.fst
  | .arr xs => (List.range xs.length).map toString
  | .str s => (List.range s.length).map toString
  | _ => []

/-- Substring test modelling JS `String.prototype.includes`. -/
def strIncludes (s pat : String) : Bool :=
  decide (List.IsInfix pat.toList s.toList)

mutual
/-- String conversion of an element inside `Array.prototype.toString`
(`null` elements print as the empty string). -/
def jsToStringOne : Json → String
  | .null => ""
  | .bool b => cond b "true" "false"
  | .num n => toString n
  | .str s => s
  | .arr xs => jsToStringArr xs
  | .obj _ => "[object Object]"
def jsToStringArr : List Json → String
  | [] => ""
  | [x] => jsToStringOne x
  | x :: y :: xs => jsToStringOne x ++ "," ++ jsToStringArr (y :: xs)
end

/-- JS string conversion as performed by a template literal. -/
def jsToString : Json → String
  | .null => "null"
  | .bool b => cond b "true" "false"
  | .num n => toString n
  | .str s => s
  | .arr xs => jsToStringArr xs
  | .obj _ => "[object Object]"

mutual
/-- Model of the platform builtin `JSON.stringify` on parsed JSON values
(string escaping is not modelled; no claim inspects serialized bodies). -/
def jsonStringify : Json → String
  | .null => "null"
  | .bool b => cond b "true" "false"
  | .num n => toString n
  | .str s => "\"" ++ s ++ "\""
  | .arr xs => "[" ++ jsonStringifyList xs ++ "]"
  | .obj fields => "\x7b" ++ jsonStringifyFields fields ++ "\x7d"
def jsonStringifyList : List Json → String
  | [] => ""
  | [x] => jsonStringify x
  | x :: y :: xs => jsonStringify x ++ "," ++ jsonStringifyList (y :: xs)
def jsonStringifyFields : List (String × Json) → String
  | [] => ""
  | [(k, v)] => "\"" ++ k ++ "\":" ++ jsonStringify v
  | (k, v) :: f :: fs =>
      "\"" ++ k ++ "\":" ++ jsonStringify v ++ "," ++ jsonStringifyFields (f :: fs)
end

/-- The five HTTP verbs of `AppOperationRequest["method"]`. -/
inductive Method where
  | GET | POST | PUT | PATCH | DELETE
deriving DecidableEq

/-- A registry entry `{method, url}` (`AppOperationRequest`). -/
structure AppOperationRequest where
  method : Method
  url : String
deriving DecidableEq

/-- Fetch-API `Headers` object: entries in append order, names lowercased. -/
abbrev HeadersList : Type := List (String × String)

/-- Header-name normalization (ASCII lowercasing, as the Headers class
performs; defined structurally so the kernel can evaluate it). -/
def strLower (s : String) : String :=
  String.mk (s.toList.map Char.toLower)

/-- Model of `Headers.prototype.append`. -/
def headersAppend (h : HeadersList) (name value : String) : HeadersList :=
  List.append h [(strLower name, value)]

/-- Model of `Headers.prototype.delete`: removes every value of a name. -/
def headersDelete (h : HeadersList) (name : String) : HeadersList :=
  List.filter (fun p => p.1 ≠ strLower name) h

/-- Values stored for a name, in append order. -/
def headerValues (h : HeadersList) (name : String) : List String :=
  (List.filter (fun p => p.1 = strLower name) h).map Prod.snd

/-- Model of `Headers.prototype.get`: the stored values joined with ", ". -/
def headersGet (h : HeadersList) (name : String) : Option String :=
  match headerValues h name with
  | [] => none
  | v :: vs => some (vs.foldl (fun acc w => acc ++ ", " ++ w) v)

/-- Append every entry of a record (`Object.entries(...).forEach(append)`). -/
def appendAll (h : HeadersList) (entries : List (String × String)) : HeadersList :=
  entries.foldl (fun acc p => headersAppend acc p.1 p.2) h

/-- A caller-supplied request body: either a `FormData` payload (modelled
as its parts) or a plain object to be JSON-stringified. -/
inductive ReqBody where
  | form (parts : List (String × String)) : ReqBody
  | obj (j : Json) : ReqBody

/-- The body placed into the fetch options (`FormData | string`). -/
inductive BodyPayload where
  | form (parts : List (String × String)) : BodyPayload
  | str (s : String) : BodyPayload

/-- The options object handed to `fetch`. -/
structure RequestOptions where
  method : Method
  headers : HeadersList
  body : Option BodyPayload

/-- The transport primitive: `await fetch(fullUrl, options)` followed by
`await response.json()`, as one oracle that either throws or yields the
parsed body. -/
def Transport : Type :=
  String → RequestOptions → Except JsError Json

/-- Toast kinds accepted by the `showToast` hook. -/
inductive ToastType where
  | success | error
deriving DecidableEq

/-- The gateway's configuration at call time: `baseUrl`, the request
registry, the static header record, the record returned by the dynamic
header provider for this call (`none` when no provider is set), and
whether a `showToast` handler is installed. -/
structure Gateway where
  baseUrl : String
  requests : List (String × AppOperationRequest)
  staticHeaders : List (String × String)
  dynamicHeaders : Option (List (String × String))
  hasToast : Bool

/-- Registry lookup `this.requests[request]`. -/
def findReq (rs : List (String × AppOperationRequest)) (k : String) :
    Option AppOperationRequest :=
  match rs with
  | [] => none
  | (k', r) :: rest => if k' = k then some r else findReq rest k

/-- Observable outcome of one `sendRequest` call: the returned value, the
`showToast` invocations in order, and the transport invocations in order. -/
structure CallResult where
  value : Json
  toasts : List (ToastType × Json)
  netCalls : List (String × RequestOptions)

/-- Query-parameter serialization of `sendRequest` (lines 215-225):
`Object.keys(params).filter(nonNullish).forEach` builds
`?k=v&k=v...` with the filtered index deciding the separator; values are
interpolated with no URL-encoding. -/
def serializeParams (params : List (String × Option Json)) : String :=
  let kept := params.filterMap (fun p =>
    match p.2 with
    | none => none
    | some Json.null => none
    | some v => some (p.1, v))
  match kept with
  | [] => ""
  | (k, v) :: rest =>
      rest.foldl (fun acc p => acc ++ "&" ++ p.1 ++ "=" ++ jsToString p.2)
        ("?" ++ k ++ "=" ++ jsToString v)

/-- Error-message classification of the catch block (lines 259-267). -/
def classify (errorMessage : String) : String :=
  if strIncludes errorMessage "Network request failed"
      || strIncludes errorMessage "Failed to fetch" then
    "Network error. Please check your connection."
  else if strIncludes errorMessage "JSON" then
    "Invalid response from server"
  else
    "Something went wrong"

/-- The `_error?.message || "Unknown error"` fallback of the catch block. -/
def orUnknown (m : String) : String :=
  if m = "" then "Unknown error" else m

/-- A `showToast` invocation happens only when a handler is installed. -/
def emitIf (hasToast : Bool) (t : ToastType) (m : Json) :
    List (ToastType × Json) :=
  if hasToast then [(t, m)] else []

/-- The first-error extraction of the 422 branch (line 244):
`data.errors[Object.keys(data.errors)[0]][0]`; an absent first key indexes
with the string "undefined", and indexing `undefined` throws. -/
def extractFirstError (errs : Json) : Except JsError (Option Json) :=
  let k := ((objectKeys errs).head?).getD "undefined"
  match jsIndex (some errs) k with
  | Except.error e => Except.error e
  | Except.ok v => jsIndex v "0"

/-- The toast-inspection block run on the parsed body inside the `try`
(lines 234-253).  On success it returns the toast invocations; on a throw
it returns the error together with the toasts already emitted before the
throw (which the catch block does not undo). -/
def notifyInspect (data : Json) (suppressToast hasToast : Bool) :
    Except (JsError × List (ToastType × Json)) (List (ToastType × Json)) :=
  let step1 : Except JsError (List (ToastType × Json)) :=
    if suppressToast then Except.ok []
    else
      match jsIndex (some data) "status" with
      | Except.error e => Except.error e
      | Except.ok st =>
          if jsStrictEqNum st 200 || jsStrictEqNum st 201 then
            let m := optProp data "message"
            Except.ok (if truthyOpt m then
              emitIf hasToast ToastType.success (m.getD Json.null) else [])
          else Except.ok []
  match step1 with
  | Except.error e => Except.error (e, [])
  | Except.ok t1 =>
    match jsIndex (some data) "status" with
    | Except.error e => Except.error (e, t1)
    | Except.ok st =>
      if jsStrictEqNum st 422 && !suppressToast then
        let errs := optProp data "errors"
        match (if truthyOpt errs then extractFirstError (errs.getD Json.null)
               else Except.ok (optProp data "message")) with
        | Except.error e => Except.error (e, t1)
        | Except.ok message =>
            Except.ok (t1 ++ (if truthyOpt message then
              emitIf hasToast ToastType.error (message.getD Json.null) else []))
      else if jsStrictEqNum st 400 && !suppressToast
          && truthyOpt (optProp data "message") then
        Except.ok (t1 ++ emitIf hasToast ToastType.error
          ((optProp data "message").getD Json.null))
      else if jsStrictEqNum st 500 && !suppressToast
          && truthyOpt (optProp data "message") then
        Except.ok (t1 ++ emitIf hasToast ToastType.error
          ((optProp data "message").getD Json.null))
      else Except.ok t1

/-- The catch block of `sendRequest` (lines 256-277): classify the thrown
error's message, toast it unless suppressed, and return the synthesized
500 envelope carrying the original message. -/
def catchResult (e : JsError) (suppressToast hasToast : Bool)
    (fullUrl : String) (opts : RequestOptions) : CallResult :=
  let errorMessage := orUnknown e.message
  let userMessage := classify errorMessage
  { value := Json.obj [("status", Json.num 500),
      ("message", Json.str userMessage), ("error", Json.str errorMessage)]
    toasts := if suppressToast then []
      else emitIf hasToast ToastType.error (Json.str userMessage)
    netCalls := [(fullUrl, opts)] }

/-- Header and body preparation of `sendRequest` (lines 181-213):
append `Content-Type: application/json`, then every static header, then
every dynamic header; a `FormData` body replaces the Content-Type with
the multipart variant and passes through, a plain object body is
JSON-stringified. -/
def buildHeadersAndBody (gw : Gateway) (body : Option ReqBody) :
    HeadersList × Option BodyPayload :=
  let headers0 := headersAppend [] "Content-Type" "application/json"
  let headers1 := appendAll headers0 gw.staticHeaders
  let headers2 := appendAll headers1 (gw.dynamicHeaders.getD [])
  match body with
  | none => (headers2, none)
  | some (ReqBody.form parts) =>
      (headersAppend (headersDelete headers2 "Content-Type")
        "Content-Type" "multipart/form-data",
       some (BodyPayload.form parts))
  | some (ReqBody.obj j) => (headers2, some (BodyPayload.str (jsonStringify j)))

/-- The error message returned when the base URL is missing (line 170). -/
def baseUrlErrorMsg : String :=
  "API base URL is not configured. Please set the baseUrl when constructing AppOperation."

/-- The `parsedParams` query string of a call (empty when `params` is
`undefined`). -/
def queryStringOf (params : Option (List (String × Option Json))) : String :=
  match params with
  | none => ""
  | some ps => serializeParams ps

/-- The `fullUrl` of line 228: `baseUrl + url + parsedParams`. -/
def fullUrlOf (gw : Gateway) (url : String)
    (params : Option (List (String × Option Json))) : String :=
  gw.baseUrl ++ url ++ queryStringOf params

/-- The `options` object of lines 195-213. -/
def requestOptionsOf (gw : Gateway) (method : Method)
    (body : Option ReqBody) : RequestOptions :=
  ⟨method, (buildHeadersAndBody gw body).1, (buildHeadersAndBody gw body).2⟩

/-- Handling of a successfully parsed body (lines 234-255 and, when the
inspection itself throws, the catch block it falls into): run the toast
inspection; on success return the parsed body verbatim, on a throw keep
the already-emitted toasts and fall to the catch block. -/
def handleParsed (data : Json) (suppressToast hasToast : Bool)
    (fullUrl : String) (opts : RequestOptions) : CallResult :=
  match notifyInspect data suppressToast hasToast with
  | Except.ok ts => { value := data, toasts := ts, netCalls := [(fullUrl, opts)] }
  | Except.error (e, partial_) =>
      let c := catchResult e suppressToast hasToast fullUrl opts
      { c with toasts := partial_ ++ c.toasts }

/-- The low-level request handler `sendRequest` (lines 162-279). -/
def sendRequest (gw : Gateway) (transport : Transport) (url : String)
    (method : Method) (suppressToast : Bool)
    (params : Option (List (String × Option Json)))
    (body : Option ReqBody) : CallResult :=
  if gw.baseUrl = "" then
    { value := Json.obj [("status", Json.num 500),
        ("message", Json.str baseUrlErrorMsg)]
      toasts := if suppressToast then []
        else emitIf gw.hasToast ToastType.error (Json.str "API configuration error")
      netCalls := [] }
  else
    match transport (fullUrlOf gw url params) (requestOptionsOf gw method body) with
    | Except.error e =>
        catchResult e suppressToast gw.hasToast
          (fullUrlOf gw url params) (requestOptionsOf gw method body)
    | Except.ok data =>
        handleParsed data suppressToast gw.hasToast
          (fullUrlOf gw url params) (requestOptionsOf gw method body)

/-- Arguments of `getRequest` with their defaults (the `id` is the string
the number-or-string argument concatenates as). -/
structure GetRequestArgs where
  body : Option ReqBody := none
  suppressToast : Bool := false
  id : String := ""
  params : Option (List (String × Option Json)) := none
  pathExtension : String := ""
  request : String

/-- The generic entry point `getRequest` (lines 91-124): resolve the
registry entry (an absent key makes line 106 throw a `TypeError` reading
`.url` of `undefined`), build the base path, and dispatch by method to
the verb wrappers, which all funnel into `sendRequest` (GET forces
`suppressToast = true` and forwards `params`; GET and DELETE pass no
body; no verb but GET passes params). -/
def getRequest (gw : Gateway) (transport : Transport) (args : GetRequestArgs) :
    Except JsError CallResult :=
  match findReq gw.requests args.request with
  | none =>
      Except.error (JsError.typeError
        "Cannot read properties of undefined (reading 'url')")
  | some req =>
    let basePath := req.url ++ args.id ++ args.pathExtension
    match req.method with
    | Method.DELETE =>
        Except.ok (sendRequest gw transport basePath Method.DELETE
          args.suppressToast none none)
    | Method.GET =>
        Except.ok (sendRequest gw transport basePath Method.GET
          true args.params none)
    | Method.PATCH =>
        Except.ok (sendRequest gw transport basePath Method.PATCH
          args.suppressToast none args.body)
    | Method.POST =>
        Except.ok (sendRequest gw transport basePath Method.POST
          args.suppressToast none args.body)
    | Method.PUT =>
        Except.ok (sendRequest gw transport basePath Method.PUT
          args.suppressToast none args.body)

/-- How one header-record entry is stored by `Headers.append`. -/
def lowerPair (p : String × String) : String × String :=
  (strLower p.1, p.2)

/-- The merged header list before body handling: `Content-Type` first,
then the static entries, then the dynamic entries, in append order. -/
def mergedHeaders (gw : Gateway) : HeadersList :=
  ("content-type", "application/json") ::
    (gw.staticHeaders.map lowerPair ++ (gw.dynamicHeaders.getD []).map lowerPair)

/-- Join strings with `&` separators. -/
def joinAmp : List String → String
  | [] => ""
  | [x] => x
  | x :: y :: xs => x ++ "&" ++ joinAmp (y :: xs)

/-- Query serialization as the spec words it: drop entries whose value is
`undefined` or `null`, keep iteration order, join the `key=value` pairs
with `&`, prefix a `?`, and perform no URL-encoding.  (Compared against
`serializeParams`, which is transcribed from the source.) -/
def serializeParamsSpec (params : List (String × Option Json)) : String :=
  match params.filterMap (fun p =>
    match p.2 with
    | none => none
    | some Json.null => none
    | some v => some (p.1, v)) with
  | [] => ""
  | kept => "?" ++ joinAmp (kept.map (fun p => p.1 ++ "=" ++ jsToString p.2))

/-- A representative registry (the `requests` map of `src/api.ts`). -/
def demoRequests : List (String × AppOperationRequest) :=
  [("login", ⟨Method.POST, "auth/login"⟩),
   ("get_profile", ⟨Method.GET, "profile/"⟩),
   ("delete_profile", ⟨Method.DELETE, "profile/"⟩)]

/-- A concretely configured gateway used by witnesses. -/
def demoGw : Gateway :=
  { baseUrl := "https://example.com/api/v1/", requests := demoRequests,
    staticHeaders := [("System-Key", "sk")],
    dynamicHeaders := some [("Authorization", "tok")], hasToast := true }

/-- A gateway whose base URL was left empty. -/
def gwNoBase : Gateway :=
  { baseUrl := "", requests := demoRequests, staticHeaders := [],
    dynamicHeaders := none, hasToast := true }

/-- A gateway carrying a static and a dynamic header with the same key. -/
def gwDupHeader : Gateway :=
  { baseUrl := "https://example.com/api/v1/", requests := [],
    staticHeaders := [("X-Lang", "en")],
    dynamicHeaders := some [("X-Lang", "ku")], hasToast := false }

/-- A transport whose response body parses to `{status: 200}`. -/
def okTransport : Transport :=
  fun _ _ => Except.ok (Json.obj [("status", Json.num 200)])

/-! ## Helper lemmas (shared infrastructure, not claim theorems) -/

lemma appendAll_eq (es : List (String × String)) (h : HeadersList) :
    appendAll h es = h ++ es.map lowerPair := by
  induction es generalizing h with
  | nil => simp [appendAll]
  | cons e es ih =>
      show appendAll (headersAppend h e.1 e.2) es = _
      rw [ih]
      simp [headersAppend, lowerPair]

lemma ctLower : strLower "Content-Type" = "content-type" := by decide

lemma mergedHeaders_eq (gw : Gateway) :
    appendAll (appendAll (headersAppend [] "Content-Type" "application/json")
        gw.staticHeaders) (gw.dynamicHeaders.getD []) = mergedHeaders gw := by
  rw [appendAll_eq, appendAll_eq]
  simp [headersAppend, ctLower, mergedHeaders]

lemma buildHeadersAndBody_headers (gw : Gateway) (body : Option ReqBody) :
    (buildHeadersAndBody gw body).1 =
      match body with
      | some (ReqBody.form _) =>
          headersAppend (headersDelete (mergedHeaders gw) "Content-Type")
            "Content-Type" "multipart/form-data"
      | _ => mergedHeaders gw := by
  cases body with
  | none => show appendAll _ _ = _; rw [mergedHeaders_eq]
  | some b =>
      cases b with
      | form parts =>
          show headersAppend (headersDelete (appendAll _ _) _) _ _ = _
          rw [mergedHeaders_eq]
      | obj j => show appendAll _ _ = _; rw [mergedHeaders_eq]

lemma headerValues_append (a b : HeadersList) (k : String) :
    headerValues (a ++ b) k = headerValues a k ++ headerValues b k := by
  simp [headerValues, List.filter_append]

lemma headerValues_cons_ne (p : String × String) (h : HeadersList) (k : String)
    (hne : p.1 ≠ strLower k) : headerValues (p :: h) k = headerValues h k := by
  simp [headerValues, List.filter_cons, hne]

lemma headerValues_delete_ne (h : HeadersList) (n k : String)
    (hne : strLower k ≠ strLower n) :
    headerValues (headersDelete h n) k = headerValues h k := by
  induction h with
  | nil => rfl
  | cons p t ih =>
      by_cases hp : p.1 = strLower n
      · have hpk : p.1 ≠ strLower k := by rw [hp]; exact fun hc => hne hc.symm
        have hdel : headersDelete (p :: t) n = headersDelete t n := by
          simp [headersDelete, List.filter_cons, hp]
        rw [hdel, ih, headerValues_cons_ne p t k hpk]
      · have hdel : headersDelete (p :: t) n = p :: headersDelete t n := by
          simp [headersDelete, List.filter_cons, hp]
        rw [hdel]
        by_cases hk : p.1 = strLower k
        · simp only [headerValues, List.filter_cons, hk] at *
          simpa using ih
        · rw [headerValues_cons_ne p _ k hk, headerValues_cons_ne p t k hk, ih]

lemma headerValues_appendOne_ne (h : HeadersList) (n v k : String)
    (hne : strLower n ≠ strLower k) :
    headerValues (headersAppend h n v) k = headerValues h k := by
  have : strLower n ≠ strLower k := hne
  simp [headersAppend, headerValues, List.filter_append, List.filter_cons, this]

lemma sendRequest_netCalls (gw : Gateway) (transport : Transport) (url : String)
    (method : Method) (sup : Bool) (params : Option (List (String × Option Json)))
    (body : Option ReqBody) (h : gw.baseUrl ≠ "") :
    (sendRequest gw transport url method sup params body).netCalls =
      [(fullUrlOf gw url params, requestOptionsOf gw method body)] := by
  unfold sendRequest
  rw [if_neg h]
  cases transport (fullUrlOf gw url params) (requestOptionsOf gw method body) with
  | error e => rfl
  | ok data =>
      show (handleParsed data sup gw.hasToast _ _).netCalls = _
      unfold handleParsed
      cases hni : notifyInspect data sup gw.hasToast with
      | ok ts => rfl
      | error p => obtain ⟨e, pt⟩ := p; rfl

lemma notifyInspect_suppressed (data : Json) (ht : Bool) :
    notifyInspect data true ht = Except.ok [] ∨
      ∃ e, notifyInspect data true ht = Except.error (e, []) := by
  unfold notifyInspect
  cases h : jsIndex (some data) "status" with
  | error e => right; exact ⟨e, by simp [h]⟩
  | ok st => left; simp [h]

lemma sendRequest_suppressed_toasts (gw : Gateway) (transport : Transport)
    (url : String) (method : Method)
    (params : Option (List (String × Option Json))) (body : Option ReqBody) :
    (sendRequest gw transport url method true params body).toasts = [] := by
  unfold sendRequest
  by_cases hb : gw.baseUrl = ""
  · rw [if_pos hb]; rfl
  · rw [if_neg hb]
    cases transport (fullUrlOf gw url params) (requestOptionsOf gw method body) with
    | error e => simp [catchResult]
    | ok data =>
        show (handleParsed data true gw.hasToast _ _).toasts = []
        unfold handleParsed
        rcases notifyInspect_suppressed data gw.hasToast with h | ⟨e, h⟩
        · rw [h]
        · rw [h]; simp [catchResult]

lemma foldl_amp (xs : List (String × Json)) (a : String) :
    xs.foldl (fun acc p => acc ++ "&" ++ p.1 ++ "=" ++ jsToString p.2) a =
      joinAmp (a :: xs.map (fun p => p.1 ++ "=" ++ jsToString p.2)) := by
  induction xs generalizing a with
  | nil => rfl
  | cons x xs ih =>
      rw [List.foldl_cons, ih, List.map_cons]
      cases hxs : xs.map (fun p => p.1 ++ "=" ++ jsToString p.2) with
      | nil => simp [joinAmp, String.append_assoc]
      | cons b bs => simp [joinAmp, String.append_assoc]

lemma serializeParams_eq_spec (ps : List (String × Option Json)) :
    serializeParams ps = serializeParamsSpec ps := by
  unfold serializeParams serializeParamsSpec
  cases hk : ps.filterMap (fun p =>
      match p.2 with
      | none => none
      | some Json.null => none
      | some v => some (p.1, v)) with
  | nil => rfl
  | cons x rest =>
      simp only []
      rw [foldl_amp, List.map_cons]
      cases hrest : rest.map (fun p => p.1 ++ "=" ++ jsToString p.2) with
      | nil => simp [joinAmp, String.append_assoc]
      | cons b bs => simp [joinAmp, String.append_assoc]

/-! ## Claim theorems -/

/-- C1 counterexample: the claim says a dynamic header with the same key
as a static header overrides it in the final outgoing header set.  On the
code it does not: `Headers.append` keeps both entries, so with static
`X-Lang: en` and dynamic `X-Lang: ku` the outgoing value of `X-Lang` is
"en, ku", not "ku". -/
theorem claim_C1_counterexample :
    (sendRequest gwDupHeader (fun _ _ => Except.ok (Json.obj [])) "p"
        Method.POST true none none).netCalls.map
      (fun c => headersGet c.2.headers "X-Lang") = [some "en, ku"] ∧
    some "en, ku" ≠ some "ku" := by
  exact ⟨by decide, by decide⟩

/-- C1 amended: headers are merged at call time in insertion order,
static first then dynamic (that part of the claim holds), but a dynamic
header sharing a key with a static header does not override it: both
entries are appended, so the final outgoing header set carries, for every
key other than Content-Type, the static values followed by the dynamic
values (which `Headers.get` joins with ", "). -/
theorem claim_C1_amended (gw : Gateway) (transport : Transport) (url : String)
    (method : Method) (sup : Bool) (params : Option (List (String × Option Json)))
    (body : Option ReqBody) (k : String)
    (hbase : gw.baseUrl ≠ "") (hk : strLower k ≠ "content-type") :
    (sendRequest gw transport url method sup params body).netCalls.map
        (fun c => headerValues c.2.headers k) =
      [headerValues (gw.staticHeaders.map lowerPair) k ++
        headerValues ((gw.dynamicHeaders.getD []).map lowerPair) k] := by
  rw [sendRequest_netCalls gw transport url method sup params body hbase,
    List.map_cons, List.map_nil]
  have hcons : ∀ h : HeadersList,
      headerValues (("content-type", "application/json") :: h) k = headerValues h k :=
    fun h => headerValues_cons_ne _ h k (fun hc => hk hc.symm)
  have hmerged : headerValues (mergedHeaders gw) k =
      headerValues (gw.staticHeaders.map lowerPair) k ++
        headerValues ((gw.dynamicHeaders.getD []).map lowerPair) k := by
    unfold mergedHeaders
    rw [hcons, headerValues_append]
  show [headerValues (buildHeadersAndBody gw body).1 k] = _
  rw [buildHeadersAndBody_headers]
  cases body with
  | none => rw [hmerged]
  | some b =>
      cases b with
      | obj j => rw [hmerged]
      | form parts =>
          show [headerValues (headersAppend (headersDelete (mergedHeaders gw)
            "Content-Type") "Content-Type" "multipart/form-data") k] = _
          rw [headerValues_appendOne_ne _ _ _ _ (by rw [ctLower]; exact fun h => hk h.symm),
            headerValues_delete_ne _ _ _ (by rw [ctLower]; exact hk), hmerged]

/-- C1 amended witness at a concrete collision: static `X-Lang: en`,
dynamic `X-Lang: ku`. -/
theorem claim_C1_amended_witness :
    (sendRequest gwDupHeader okTransport "p" Method.POST false none none).netCalls.map
        (fun c => headerValues c.2.headers "X-Lang") =
      [headerValues (gwDupHeader.staticHeaders.map lowerPair) "X-Lang" ++
        headerValues ((gwDupHeader.dynamicHeaders.getD []).map lowerPair) "X-Lang"] :=
  claim_C1_amended gwDupHeader okTransport "p" Method.POST false none none "X-Lang"
    (by decide) (by decide)

/-- C2: query parameters are serialized into a leading
`?key=value&key=value...` string, dropping entries whose value is
undefined or null, preserving iteration order, with no URL-encoding
(`serializeParams`, transcribed from the source, coincides with the
spec-worded `serializeParamsSpec`); the example `{a: 1, b: undefined,
c: "y"}` serializes to `?a=1&c=y`; and every call that reaches the
network step invokes the transport on `baseUrl ++ path ++ queryString`. -/
theorem claim_C2 :
    (∀ ps, serializeParams ps = serializeParamsSpec ps) ∧
    serializeParams
        [("a", some (Json.num 1)), ("b", none), ("c", some (Json.str "y"))] =
      "?a=1&c=y" ∧
    (∀ gw transport url method sup ps body, gw.baseUrl ≠ "" →
      (sendRequest gw transport url method sup (some ps) body).netCalls.map
          Prod.fst =
        [gw.baseUrl ++ url ++ serializeParams ps]) := by
  refine ⟨serializeParams_eq_spec, by decide, ?_⟩
  intro gw transport url method sup ps body hbase
  rw [sendRequest_netCalls _ _ _ _ _ _ _ hbase]
  rfl

/-- C2 witness: a concrete GET carrying the example parameters reaches
the transport at the serialized URL. -/
theorem claim_C2_witness :
    (sendRequest demoGw okTransport "profile/" Method.GET true
        (some [("a", some (Json.num 1)), ("b", none), ("c", some (Json.str "y"))])
        none).netCalls.map Prod.fst =
      [demoGw.baseUrl ++ "profile/" ++ serializeParams
        [("a", some (Json.num 1)), ("b", none), ("c", some (Json.str "y"))]] :=
  claim_C2.2.2 demoGw okTransport "profile/" Method.GET true
    [("a", some (Json.num 1)), ("b", none), ("c", some (Json.str "y"))] none
    (by decide)

/-- C3: for every operation identifier absent from the registry,
`getRequest` fails with a thrown error — the `TypeError` raised at line
106 when `.url` is read off the `undefined` registry entry, which §7 of
the spec labels the "unsupported operation" condition.  The conclusion is
a constant that does not depend on the transport, the headers, the body
or any other argument, so the failure happens before any header or body
work and before any network attempt. -/
theorem claim_C3 (gw : Gateway) (transport : Transport) (args : GetRequestArgs)
    (habsent : findReq gw.requests args.request = none) :
    getRequest gw transport args =
      Except.error (JsError.typeError
        "Cannot read properties of undefined (reading 'url')") := by
  unfold getRequest
  rw [habsent]

/-- C3 witness: `perform("does-not-exist", ...)` against the demo
registry. -/
theorem claim_C3_witness :
    findReq demoGw.requests "does-not-exist" = none ∧
    getRequest demoGw okTransport { request := "does-not-exist" } =
      Except.error (JsError.typeError
        "Cannot read properties of undefined (reading 'url')") :=
  ⟨by decide, claim_C3 demoGw okTransport { request := "does-not-exist" } (by decide)⟩

/-- C4 counterexample: the claim says no exception ever propagates from
`getRequest` to the caller.  It does when the operation identifier is
absent from the registry: the call rejects with the `TypeError` of line
106 instead of returning a value. -/
theorem claim_C4_counterexample :
    getRequest demoGw (fun _ _ => Except.ok Json.null) { request := "save" } =
      Except.error (JsError.typeError
        "Cannot read properties of undefined (reading 'url')") := by
  rfl

/-- C4 amended: for every operation identifier present in the registry,
every call path of `getRequest` returns a value (no exception
propagates); in particular any exception thrown by the network call or
the JSON parse is caught and converted into the synthesized
`{status: 500, message, error}` envelope.  Only the absent-identifier
lookup can reject. -/
theorem claim_C4_amended :
    (∀ (gw : Gateway) (transport : Transport) (args : GetRequestArgs)
        (req : AppOperationRequest),
      findReq gw.requests args.request = some req →
      ∃ r, getRequest gw transport args = Except.ok r) ∧
    (∀ (gw : Gateway) (url : String) (method : Method) (sup : Bool)
        (params : Option (List (String × Option Json))) (body : Option ReqBody)
        (e : JsError), gw.baseUrl ≠ "" →
      (sendRequest gw (fun _ _ => Except.error e) url method sup params
          body).value =
        Json.obj [("status", Json.num 500),
          ("message", Json.str (classify (orUnknown e.message))),
          ("error", Json.str (orUnknown e.message))]) := by
  constructor
  · intro gw transport args req hreq
    obtain ⟨m, u⟩ := req
    cases m
    all_goals (unfold getRequest; rw [hreq]; exact ⟨_, rfl⟩)
  · intro gw url method sup params body e hbase
    unfold sendRequest
    rw [if_neg hbase]
    rfl

/-- C4 amended witness: a registered operation whose transport throws
still returns a value — the synthesized 500 envelope. -/
theorem claim_C4_amended_witness :
    (∃ r, getRequest demoGw okTransport { request := "login" } = Except.ok r) ∧
    (sendRequest demoGw (fun _ _ => Except.error (JsError.error "boom"))
        "auth/login" Method.POST false none none).value =
      Json.obj [("status", Json.num 500),
        ("message", Json.str (classify (orUnknown (JsError.error "boom").message))),
        ("error", Json.str (orUnknown (JsError.error "boom").message))] :=
  ⟨claim_C4_amended.1 demoGw okTransport { request := "login" }
      ⟨Method.POST, "auth/login"⟩ (by decide),
    claim_C4_amended.2 demoGw "auth/login" Method.POST false none none
      (JsError.error "boom") (by decide)⟩

/-- C5 counterexample: the claim says any thrown message other than one
containing "Failed to fetch" or "JSON" yields the generic text.  The
message "Network request failed" contains neither, yet the code (line
261) classifies it as the network-error text, not the generic text. -/
theorem claim_C5_counterexample :
    strIncludes "Network request failed" "Failed to fetch" = false ∧
    strIncludes "Network request failed" "JSON" = false ∧
    (sendRequest demoGw (fun _ _ => Except.error (JsError.error "Network request failed"))
        "profile/" Method.GET false none none).value =
      Json.obj [("status", Json.num 500),
        ("message", Json.str "Network error. Please check your connection."),
        ("error", Json.str "Network request failed")] ∧
    "Network error. Please check your connection." ≠ "Something went wrong" := by
  refine ⟨by decide, by decide, ?_, by decide⟩
  rfl

/-- C5 amended: the catch block classifies by substring with the network
check first and with two network phrasings — a message containing
"Network request failed" or "Failed to fetch" yields the network-error
text; otherwise a message containing "JSON" yields the invalid-response
text; any other message yields the generic text.  The returned envelope
is `{status: 500, message: <classified>, error: <original message>}`
(with "Unknown error" standing in when the thrown error has no message). -/
theorem claim_C5_amended (gw : Gateway) (transport : Transport) (url : String)
    (method : Method) (sup : Bool) (params : Option (List (String × Option Json)))
    (body : Option ReqBody) (e : JsError) (hbase : gw.baseUrl ≠ "")
    (htr : transport (fullUrlOf gw url params) (requestOptionsOf gw method body) =
      Except.error e) :
    (sendRequest gw transport url method sup params body).value =
      Json.obj [("status", Json.num 500),
        ("message", Json.str (classify (orUnknown e.message))),
        ("error", Json.str (orUnknown e.message))] ∧
    (∀ m : String,
      (strIncludes m "Network request failed" || strIncludes m "Failed to fetch") = true →
      classify m = "Network error. Please check your connection.") ∧
    (∀ m : String,
      (strIncludes m "Network request failed" || strIncludes m "Failed to fetch") = false →
      strIncludes m "JSON" = true →
      classify m = "Invalid response from server") ∧
    (∀ m : String,
      (strIncludes m "Network request failed" || strIncludes m "Failed to fetch") = false →
      strIncludes m "JSON" = false →
      classify m = "Something went wrong") := by
  refine ⟨?_, ?_, ?_, ?_⟩
  · unfold sendRequest
    rw [if_neg hbase, htr]
    rfl
  · intro m hm
    unfold classify
    rw [hm]
    rfl
  · intro m h1 h2
    unfold classify
    rw [h1, h2]
    rfl
  · intro m h1 h2
    unfold classify
    rw [h1, h2]
    rfl

/-- C5 amended witness at the thrown message "boom body of JSON". -/
theorem claim_C5_amended_witness :
    (sendRequest demoGw (fun _ _ => Except.error (JsError.error "bad JSON here"))
        "profile/" Method.GET true none none).value =
      Json.obj [("status", Json.num 500),
        ("message", Json.str (classify (orUnknown (JsError.error "bad JSON here").message))),
        ("error", Json.str (orUnknown (JsError.error "bad JSON here").message))] ∧
    classify "bad JSON here" = "Invalid response from server" :=
  ⟨(claim_C5_amended demoGw (fun _ _ => Except.error (JsError.error "bad JSON here"))
      "profile/" Method.GET true none none (JsError.error "bad JSON here")
      (by decide) rfl).1,
    (claim_C5_amended demoGw (fun _ _ => Except.error (JsError.error "bad JSON here"))
      "profile/" Method.GET true none none (JsError.error "bad JSON here")
      (by decide) rfl).2.2.1 "bad JSON here" (by decide) (by decide)⟩

/-- C6: with an unset/empty base URL, `sendRequest` short-circuits: zero
network calls, the synthesized `{status: 500, message: <configuration
error text>}` envelope is returned, no notification is emitted when
suppressed, and the "API configuration error" error notification is
emitted when not suppressed and a handler is installed. -/
theorem claim_C6 (gw : Gateway) (transport : Transport) (url : String)
    (method : Method) (sup : Bool) (params : Option (List (String × Option Json)))
    (body : Option ReqBody) (hbase : gw.baseUrl = "") :
    (sendRequest gw transport url method sup params body).netCalls = [] ∧
    (sendRequest gw transport url method sup params body).value =
      Json.obj [("status", Json.num 500), ("message", Json.str baseUrlErrorMsg)] ∧
    (sup = true → (sendRequest gw transport url method sup params body).toasts = []) ∧
    (sup = false → gw.hasToast = true →
      (sendRequest gw transport url method sup params body).toasts =
        [(ToastType.error, Json.str "API configuration error")]) := by
  unfold sendRequest
  rw [if_pos hbase]
  refine ⟨rfl, rfl, ?_, ?_⟩
  · intro hs; rw [hs]; rfl
  · intro hs ht; rw [hs, ht]; rfl

/-- C6 witness: the demo registry behind an empty base URL. -/
theorem claim_C6_witness :
    (sendRequest gwNoBase okTransport "auth/login" Method.POST false none none).netCalls = [] ∧
    (sendRequest gwNoBase okTransport "auth/login" Method.POST false none none).value =
      Json.obj [("status", Json.num 500), ("message", Json.str baseUrlErrorMsg)] ∧
    (False = True → (sendRequest gwNoBase okTransport "auth/login" Method.POST false none none).toasts = []) ∧
    (False = False → gwNoBase.hasToast = true →
      (sendRequest gwNoBase okTransport "auth/login" Method.POST false none none).toasts =
        [(ToastType.error, Json.str "API configuration error")]) := by
  have h := claim_C6 gwNoBase okTransport "auth/login" Method.POST false none none rfl
  exact ⟨h.1, h.2.1, fun hc => absurd hc (by decide), fun _ => h.2.2.2 rfl⟩

/-- C7: with the suppress-notification flag set, the notification
callback is invoked zero times — for every low-level call whatever the
transport outcome (success envelope, application-level error status,
missing base URL, or a thrown transport/parse error), and for every
`getRequest` call that returns. -/
theorem claim_C7 :
    (∀ (gw : Gateway) (transport : Transport) (url : String) (method : Method)
        (params : Option (List (String × Option Json))) (body : Option ReqBody),
      (sendRequest gw transport url method true params body).toasts = []) ∧
    (∀ (gw : Gateway) (transport : Transport) (args : GetRequestArgs)
        (r : CallResult), args.suppressToast = true →
      getRequest gw transport args = Except.ok r → r.toasts = []) := by
  refine ⟨fun gw transport url method params body =>
    sendRequest_suppressed_toasts gw transport url method params body, ?_⟩
  intro gw transport args r hsup hok
  unfold getRequest at hok
  cases hreq : findReq gw.requests args.request with
  | none => rw [hreq] at hok; cases hok
  | some req =>
      rw [hreq] at hok
      obtain ⟨m, u⟩ := req
      cases m with
      | GET =>
          have h2 : Except.ok (sendRequest gw transport
              (u ++ args.id ++ args.pathExtension) Method.GET true args.params none) =
              Except.ok r := hok
          injection h2 with h
          rw [← h]
          exact sendRequest_suppressed_toasts _ _ _ _ _ _
      | DELETE =>
          have h2 : Except.ok (sendRequest gw transport
              (u ++ args.id ++ args.pathExtension) Method.DELETE args.suppressToast
              none none) = Except.ok r := hok
          injection h2 with h
          rw [← h, hsup]
          exact sendRequest_suppressed_toasts _ _ _ _ _ _
      | POST =>
          have h2 : Except.ok (sendRequest gw transport
              (u ++ args.id ++ args.pathExtension) Method.POST args.suppressToast
              none args.body) = Except.ok r := hok
          injection h2 with h
          rw [← h, hsup]
          exact sendRequest_suppressed_toasts _ _ _ _ _ _
      | PUT =>
          have h2 : Except.ok (sendRequest gw transport
              (u ++ args.id ++ args.pathExtension) Method.PUT args.suppressToast
              none args.body) = Except.ok r := hok
          injection h2 with h
          rw [← h, hsup]
          exact sendRequest_suppressed_toasts _ _ _ _ _ _
      | PATCH =>
          have h2 : Except.ok (sendRequest gw transport
              (u ++ args.id ++ args.pathExtension) Method.PATCH args.suppressToast
              none args.body) = Except.ok r := hok
          injection h2 with h
          rw [← h, hsup]
          exact sendRequest_suppressed_toasts _ _ _ _ _ _

/-- C7 witness: a suppressed POST to the demo registry. -/
theorem claim_C7_witness :
    (sendRequest demoGw okTransport ("auth/login" ++ "" ++ "") Method.POST true
        none (some (ReqBody.obj (Json.obj [("u", Json.str "x")])))).toasts = [] :=
  claim_C7.2 demoGw okTransport
    { request := "login", suppressToast := true,
      body := some (ReqBody.obj (Json.obj [("u", Json.str "x")])) } _ rfl rfl

/-- C8 counterexample: the claim says every body that parses as JSON is
returned verbatim.  The body `null` parses as JSON, but line 235 then
reads `.status` off `null`, which throws, so the caller receives the
synthesized generic 500 envelope instead of the parsed `null`. -/
theorem claim_C8_counterexample :
    (sendRequest demoGw (fun _ _ => Except.ok Json.null) "profile/" Method.GET
        false none none).value =
      Json.obj [("status", Json.num 500),
        ("message", Json.str "Something went wrong"),
        ("error", Json.str "Cannot read properties of null (reading 'status')")] ∧
    Json.obj [("status", Json.num 500),
        ("message", Json.str "Something went wrong"),
        ("error", Json.str "Cannot read properties of null (reading 'status')")] ≠
      Json.null := by
  refine ⟨rfl, ?_⟩
  intro h
  cases h

/-- C8 amended: in every non-exceptional network call in which the toast
inspection of the parsed body itself runs without throwing (it throws for
a `null` body, or for a non-suppressed 422 body whose truthy `errors`
field yields no first message), the parsed body is returned to the caller
verbatim — whatever its application-level status — and the notification
side effects are exactly the inspection's toasts, which never alter the
returned value. -/
theorem claim_C8_amended (gw : Gateway) (transport : Transport) (url : String)
    (method : Method) (sup : Bool) (params : Option (List (String × Option Json)))
    (body : Option ReqBody) (data : Json) (ts : List (ToastType × Json))
    (hbase : gw.baseUrl ≠ "")
    (htr : transport (fullUrlOf gw url params) (requestOptionsOf gw method body) =
      Except.ok data)
    (hni : notifyInspect data sup gw.hasToast = Except.ok ts) :
    (sendRequest gw transport url method sup params body).value = data ∧
    (sendRequest gw transport url method sup params body).toasts = ts := by
  unfold sendRequest
  rw [if_neg hbase, htr]
  show (handleParsed data sup gw.hasToast (fullUrlOf gw url params)
      (requestOptionsOf gw method body)).value = data ∧
    (handleParsed data sup gw.hasToast (fullUrlOf gw url params)
      (requestOptionsOf gw method body)).toasts = ts
  unfold handleParsed
  rw [hni]
  exact ⟨rfl, rfl⟩

/-- C8 amended witness: a 422 envelope with an `errors` mapping is
returned verbatim while its first error message is toasted. -/
theorem claim_C8_amended_witness :
    (sendRequest demoGw
        (fun _ _ => Except.ok (Json.obj [("status", Json.num 422),
          ("errors", Json.obj [("email", Json.arr [Json.str "taken"])])]))
        "auth/login" Method.POST false none none).value =
      Json.obj [("status", Json.num 422),
        ("errors", Json.obj [("email", Json.arr [Json.str "taken"])])] ∧
    (sendRequest demoGw
        (fun _ _ => Except.ok (Json.obj [("status", Json.num 422),
          ("errors", Json.obj [("email", Json.arr [Json.str "taken"])])]))
        "auth/login" Method.POST false none none).toasts =
      [(ToastType.error, Json.str "taken")] :=
  claim_C8_amended demoGw
    (fun _ _ => Except.ok (Json.obj [("status", Json.num 422),
      ("errors", Json.obj [("email", Json.arr [Json.str "taken"])])]))
    "auth/login" Method.POST false none none
    (Json.obj [("status", Json.num 422),
      ("errors", Json.obj [("email", Json.arr [Json.str "taken"])])])
    [(ToastType.error, Json.str "taken")] (by decide) rfl rfl

lemma sendRequest_body_none (gw : Gateway) (transport : Transport) (url : String)
    (method : Method) (sup : Bool)
    (params : Option (List (String × Option Json))) :
    ∀ c ∈ (sendRequest gw transport url method sup params none).netCalls,
      c.2.body = none := by
  intro c hc
  by_cases hb : gw.baseUrl = ""
  · unfold sendRequest at hc
    rw [if_pos hb] at hc
    simp at hc
  · rw [sendRequest_netCalls gw transport url method sup params none hb] at hc
    rw [List.mem_singleton] at hc
    subst hc
    rfl

/-- C9: for every operation whose registry method is GET, the low-level
call is always made with notifications suppressed and with no body — the
result does not depend on the caller's `suppressToast` argument, which
does not occur in the right-hand side — and therefore the notification
callback is never invoked on any outcome. -/
theorem claim_C9 (gw : Gateway) (transport : Transport) (args : GetRequestArgs)
    (req : AppOperationRequest) (hreq : findReq gw.requests args.request = some req)
    (hm : req.method = Method.GET) :
    getRequest gw transport args =
      Except.ok (sendRequest gw transport (req.url ++ args.id ++ args.pathExtension)
        Method.GET true args.params none) ∧
    (∀ r, getRequest gw transport args = Except.ok r → r.toasts = []) := by
  obtain ⟨m, u⟩ := req
  change m = Method.GET at hm
  subst hm
  have h1 : getRequest gw transport args =
      Except.ok (sendRequest gw transport (u ++ args.id ++ args.pathExtension)
        Method.GET true args.params none) := by
    unfold getRequest
    rw [hreq]
  refine ⟨h1, ?_⟩
  intro r hok
  rw [h1] at hok
  injection hok with h
  rw [← h]
  exact sendRequest_suppressed_toasts _ _ _ _ _ _

/-- C9 witness: the demo GET operation, called with the suppress flag
left at its default `false`, still suppresses every toast. -/
theorem claim_C9_witness :
    getRequest demoGw okTransport { request := "get_profile" } =
      Except.ok (sendRequest demoGw okTransport ("profile/" ++ "" ++ "")
        Method.GET true none none) ∧
    (sendRequest demoGw okTransport ("profile/" ++ "" ++ "")
      Method.GET true none none).toasts = [] :=
  ⟨(claim_C9 demoGw okTransport { request := "get_profile" }
      ⟨Method.GET, "profile/"⟩ (by decide) rfl).1,
    (claim_C9 demoGw okTransport { request := "get_profile" }
      ⟨Method.GET, "profile/"⟩ (by decide) rfl).2 _
      (claim_C9 demoGw okTransport { request := "get_profile" }
        ⟨Method.GET, "profile/"⟩ (by decide) rfl).1⟩

/-- C10: for every operation whose registry method is GET or DELETE, a
caller-supplied body is silently discarded: the request handed to the
transport primitive has no body, and the call's entire outcome is
independent of the supplied body (so it is neither JSON-serialized nor
inspected). -/
theorem claim_C10 (gw : Gateway) (transport : Transport) (args : GetRequestArgs)
    (req : AppOperationRequest) (hreq : findReq gw.requests args.request = some req)
    (hm : req.method = Method.GET ∨ req.method = Method.DELETE) :
    (∀ r, getRequest gw transport args = Except.ok r →
      ∀ c ∈ r.netCalls, c.2.body = none) ∧
    (∀ b1 b2 : Option ReqBody,
      getRequest gw transport
          { body := b1, suppressToast := args.suppressToast, id := args.id,
            params := args.params, pathExtension := args.pathExtension,
            request := args.request } =
        getRequest gw transport
          { body := b2, suppressToast := args.suppressToast, id := args.id,
            params := args.params, pathExtension := args.pathExtension,
            request := args.request }) := by
  obtain ⟨m, u⟩ := req
  change m = Method.GET ∨ m = Method.DELETE at hm
  constructor
  · intro r hok c hc
    unfold getRequest at hok
    rw [hreq] at hok
    rcases hm with hm | hm
    · subst hm
      have h2 : Except.ok (sendRequest gw transport
          (u ++ args.id ++ args.pathExtension) Method.GET true args.params none) =
          Except.ok r := hok
      injection h2 with h
      rw [← h] at hc
      exact sendRequest_body_none _ _ _ _ _ _ c hc
    · subst hm
      have h2 : Except.ok (sendRequest gw transport
          (u ++ args.id ++ args.pathExtension) Method.DELETE args.suppressToast
          none none) = Except.ok r := hok
      injection h2 with h
      rw [← h] at hc
      exact sendRequest_body_none _ _ _ _ _ _ c hc
  · intro b1 b2
    unfold getRequest
    simp only [hreq]
    rcases hm with hm | hm <;> subst hm <;> rfl

/-- C10 witness: the demo DELETE operation with a supplied body reaches
the transport with no body, and the supplied body does not change the
outcome. -/
theorem claim_C10_witness :
    (fullUrlOf demoGw ("profile/" ++ "" ++ "") none,
        requestOptionsOf demoGw Method.DELETE none).2.body = none ∧
    getRequest demoGw okTransport
        { body := some (ReqBody.obj Json.null), suppressToast := false, id := "",
          params := none, pathExtension := "", request := "delete_profile" } =
      getRequest demoGw okTransport
        { body := none, suppressToast := false, id := "", params := none,
          pathExtension := "", request := "delete_profile" } :=
  ⟨(claim_C10 demoGw okTransport { request := "delete_profile" }
      ⟨Method.DELETE, "profile/"⟩ (by decide) (Or.inr rfl)).1
      (sendRequest demoGw okTransport ("profile/" ++ "" ++ "") Method.DELETE
        false none none) rfl
      (fullUrlOf demoGw ("profile/" ++ "" ++ "") none,
        requestOptionsOf demoGw Method.DELETE none)
      (by rw [sendRequest_netCalls demoGw okTransport ("profile/" ++ "" ++ "")
          Method.DELETE false none none (by decide)]; exact List.mem_singleton.mpr rfl),
    (claim_C10 demoGw okTransport { request := "delete_profile" }
      ⟨Method.DELETE, "profile/"⟩ (by decide) (Or.inr rfl)).2
      (some (ReqBody.obj Json.null)) none⟩
